import Mathlib

/-!
Shallow embedding of the Moonbags BuyBot repository (bot.py, utils.py,
database.py, sui_api.py) and proofs about its buy-alert pipeline, setup
wizard, boost payment flow and trending leaderboard.

Modelling conventions:
* Python floats are modelled as exact rationals, integer timestamps as
  integers, strings as strings.
* SQLite tables are modelled as lists of row structures; primary-key
  behaviour (INSERT OR IGNORE / INSERT OR REPLACE) is modelled explicitly.
* Network and chat calls are suspension points only; dispatch decisions are
  modelled as data (which groups are sent an alert, whether the trending
  channel is posted to), since delivery itself is fire-and-forget.
* A fetch that raises is modelled as an Option-valued fetch returning none.
-/

namespace Moonbags

/-- Row of the groups table (database.py, lines 24-35). -/
structure GroupRow where
  group_id : ℤ
  token_address : String
  min_buy_usd : ℚ
  emoji : String
  website : Option String
  telegram_link : Option String
  twitter_link : Option String
  media_file_id : Option String
deriving DecidableEq, Repr

/-- Row of the buys table (database.py, lines 44-53); transaction_id is the
primary key. -/
structure BuyRow where
  transaction_id : String
  token_address : String
  buyer_address : String
  amount : ℚ
  usd_value : ℚ
  timestamp : ℤ
deriving DecidableEq, Repr

/-- Row of the boosts table (database.py, lines 55-60); token_address is the
primary key. -/
structure BoostRow where
  token_address : String
  expiration_timestamp : ℤ
deriving DecidableEq, Repr

/-- A buy record as consumed by check_buys (the keys read at bot.py,
lines 823-828). -/
structure BuyEvent where
  tx_hash : String
  buyer_address : String
  amount : ℚ
  usd_value : ℚ
  timestamp : ℤ
deriving DecidableEq, Repr

/-- utils.shorten_address (utils.py, lines 6-10). -/
def shorten_address (address : String) : String :=
  if address = "" ∨ address.length < 10 then address
  else address.take 6 ++ "..." ++ address.takeRight 4

/-- Truncation of a rational toward zero: the behaviour of Python int() on a
nonintegral number. -/
def ratTrunc (q : ℚ) : ℤ := Int.tdiv q.num q.den

/-- The emoji repetition count computed in check_buys
(bot.py, line 862, and again at line 939 for the trending post):
max(1, min(20, int(usd_value / 5))), with the divisor hardcoded to 5. -/
def check_buys_emoji_count (usd_value : ℚ) : ℤ :=
  max 1 (min 20 (ratTrunc (usd_value / 5)))

/-- The emoji_count variable of utils.format_alert (utils.py, lines 50-52):
max(1, int(usd_value / buy_step)) when buy_step > 0, else 0. -/
def format_alert_emoji_count (usd_value buy_step : ℚ) : ℤ :=
  if 0 < buy_step then max 1 (ratTrunc (usd_value / buy_step)) else 0

/-- The number of emoji repetitions actually rendered by utils.format_alert
(utils.py, line 53): min(emoji_count, 50). -/
def format_alert_emoji_repeat (usd_value buy_step : ℚ) : ℤ :=
  min (format_alert_emoji_count usd_value buy_step) 50

/-- Modelled from the spec: the claimed repeated-emoji formula
count = clamp(floor(usd_value / emoji_step), 1, 20). -/
def spec_emoji_count (usd_value emoji_step : ℚ) : ℤ :=
  max 1 (min 20 ⌊usd_value / emoji_step⌋)

/-- The tokens of boosts rows whose expiration lies strictly in the future:
SELECT token_address FROM boosts WHERE expiration_timestamp > now
(bot.py, lines 788-790). -/
def active_boost_tokens (boosts : List BoostRow) (now : ℤ) : List String :=
  (boosts.filter (fun b => now < b.expiration_timestamp)).map
    (fun b => b.token_address)

/-- INSERT OR IGNORE INTO buys (bot.py, lines 814-831): on a primary-key
conflict the insert is skipped and the table is unchanged. -/
def insert_or_ignore_buy (buys : List BuyRow) (row : BuyRow) : List BuyRow :=
  if buys.any (fun r => r.transaction_id = row.transaction_id) then buys
  else buys ++ [row]

/-- The groups to which the alert for one buy is sent: the per-token query
SELECT ... FROM groups WHERE token_address = ? (bot.py, lines 841-851)
followed by the minimum-buy gate, which skips a group when
buy.usd_value < min_buy_usd (bot.py, lines 857-859). -/
def alert_targets (groups : List GroupRow) (token_address : String)
    (usd_value : ℚ) : List GroupRow :=
  (groups.filter (fun g => g.token_address = token_address)).filter
    (fun g => ¬ (usd_value < g.min_buy_usd))

/-- should_post_trending (bot.py, lines 931-935): the buy is 200 USD or more,
or the token is in the boosted list. -/
def should_post_trending (usd_value : ℚ) (token_address : String)
    (boosted_tokens : List String) : Bool :=
  decide (200 ≤ usd_value) || boosted_tokens.contains token_address

/-- Effects of processing one buy inside check_buys. The four trending
message ingredients usd_value_str, token_amount_str, market_cap_str and
liquidity_str are plain function-local variables of check_buys, assigned only
inside a group iteration that passed its threshold (bot.py, lines 866-878);
fmt_bound records whether such an iteration has run at the point after this
buy. posted_trending says whether the trending message was actually sent;
raised says whether building it raised UnboundLocalError instead (the
variables being unbound), which the per-token handler catches. -/
structure ProcessResult where
  buys : List BuyRow
  group_alerts : List ℤ
  posted_trending : Bool
  fmt_bound : Bool
  raised : Bool
deriving DecidableEq, Repr

/-- Body of the per-buy loop of check_buys (bot.py, lines 812-991): the row is
stored with INSERT OR IGNORE, then the alert is dispatched to every matching
group meeting its threshold (with no check of whether the insert was novel),
then the trending block runs. fmt_bound says whether the four formatting
strings were already assigned by an earlier threshold-passing group iteration
of the same check_buys call; this buy's own group loop binds them iff it has
at least one alert target. The trending message (bot.py, lines 943-951) reads
those strings, so when should_post_trending holds it is sent iff they are
bound, and otherwise the block raises UnboundLocalError and nothing is
posted. -/
def check_buys_process_buy (buys : List BuyRow) (groups : List GroupRow)
    (boosted_tokens : List String) (token_address : String) (buy : BuyEvent)
    (fmt_bound : Bool) : ProcessResult :=
  let row : BuyRow :=
    { transaction_id := buy.tx_hash, token_address := token_address,
      buyer_address := buy.buyer_address, amount := buy.amount,
      usd_value := buy.usd_value, timestamp := buy.timestamp }
  let targets := alert_targets groups token_address buy.usd_value
  let bound := fmt_bound || !targets.isEmpty
  let gate := should_post_trending buy.usd_value token_address boosted_tokens
  { buys := insert_or_ignore_buy buys row
    group_alerts := targets.map (fun g => g.group_id)
    posted_trending := gate && bound
    fmt_bound := bound
    raised := gate && !bound }

/-- State accumulated by the buy loop of one token (and across tokens, since
the formatting variables are function-local to the whole check_buys call). -/
structure TokenProcessResult where
  buys : List BuyRow
  group_alerts : List ℤ
  trending_posts : ℕ
  fmt_bound : Bool
deriving DecidableEq, Repr

/-- The buy loop for one token (bot.py, lines 812-991): buys are processed in
order; when a buy's trending block raises UnboundLocalError the exception
propagates to the per-token handler (line 993), so that buy's row and group
alerts stand but its trending post and all remaining buys of this token are
skipped. -/
def check_buys_process_events (groups : List GroupRow)
    (boosted_tokens : List String) (token_address : String) :
    List BuyRow → List BuyEvent → Bool → TokenProcessResult
  | buys, [], fmt_bound => ⟨buys, [], 0, fmt_bound⟩
  | buys, ev :: rest, fmt_bound =>
    let r := check_buys_process_buy buys groups boosted_tokens token_address
      ev fmt_bound
    if r.raised then ⟨r.buys, r.group_alerts, 0, r.fmt_bound⟩
    else
      let rr := check_buys_process_events groups boosted_tokens token_address
        r.buys rest r.fmt_bound
      ⟨rr.buys, r.group_alerts ++ rr.group_alerts,
        (if r.posted_trending then 1 else 0) + rr.trending_posts, rr.fmt_bound⟩

/-- Per-token body of the check_buys fetch loop (bot.py, lines 802-994):
a raised fetch is caught, logged and skipped (fetched = none); otherwise
every returned buy is processed in order. -/
def check_buys_process_token (buys : List BuyRow) (groups : List GroupRow)
    (boosted_tokens : List String) (token_address : String)
    (fetched : Option (List BuyEvent)) (fmt_bound : Bool) : TokenProcessResult :=
  match fetched with
  | none => ⟨buys, [], 0, fmt_bound⟩
  | some evs =>
    check_buys_process_events groups boosted_tokens token_address buys evs
      fmt_bound

/-- State and effects of one check_buys poll. -/
structure PollResult where
  last_check_timestamp : Option ℤ
  buys : List BuyRow
  group_alerts : List ℤ
  trending_posts : ℕ
deriving Repr

/-- check_buys (bot.py, lines 778-997) as a state transformer. The tracked
tokens come from SELECT DISTINCT token_address FROM groups; if there are none
the poll returns early and the stored checkpoint is untouched (line 794).
Otherwise the stored checkpoint is overwritten with now (line 799) before any
fetching happens, and each token is fetched and processed with a per-token
exception guard. The formatting variables start unbound in each call and
their binding state carries across tokens. fetch receives the previous
checkpoint and the token. -/
def check_buys (stored_last_check : Option ℤ) (groups : List GroupRow)
    (boosts : List BoostRow) (buys0 : List BuyRow) (now : ℤ)
    (fetch : ℤ → String → Option (List BuyEvent)) : PollResult :=
  let tokens := (groups.map (fun g => g.token_address)).dedup
  if tokens.isEmpty then
    { last_check_timestamp := stored_last_check, buys := buys0,
      group_alerts := [], trending_posts := 0 }
  else
    let boosted := active_boost_tokens boosts now
    let last_check := stored_last_check.getD (now - 60)
    let res := tokens.foldl
      (fun (acc : TokenProcessResult) token =>
        let r := check_buys_process_token acc.buys groups boosted token
          (fetch last_check token) acc.fmt_bound
        ⟨r.buys, acc.group_alerts ++ r.group_alerts,
          acc.trending_posts + r.trending_posts, r.fmt_bound⟩)
      ⟨buys0, [], 0, false⟩
    { last_check_timestamp := some now, buys := res.buys,
      group_alerts := res.group_alerts, trending_posts := res.trending_posts }

/-! ### Setup wizard (bot.py, lines 133-421 and 619-645) -/

/-- The in-progress settings dictionary accumulated by the wizard in
context.user_data. An outer none models an absent key; for the optional
fields, some none models a key explicitly set to None by a skip. -/
structure WizardSettings where
  token_address : Option String
  min_buy_usd : Option ℚ
  emoji : Option String
  website : Option (Option String)
  telegram_link : Option (Option String)
  twitter_link : Option (Option String)
  media_file_id : Option (Option String)
deriving DecidableEq, Repr

/-- An empty settings dictionary. -/
def WizardSettings.empty : WizardSettings := ⟨none, none, none, none, none, none, none⟩

/-- The per-user conversation data relevant to the Finish transition. -/
structure SetupUserData where
  setup_group_id : Option ℤ
  settings : WizardSettings
deriving DecidableEq, Repr

/-- The row written by save_group_settings (bot.py, lines 619-645), with the
defaults of the source: settings.get(key) is none for an absent key,
min_buy_usd defaults to 0 and emoji to the flame emoji. -/
structure GroupsInsert where
  group_id : ℤ
  token_address : Option String
  min_buy_usd : ℚ
  emoji : String
  website : Option String
  telegram_link : Option String
  twitter_link : Option String
  media_file_id : Option String
deriving DecidableEq, Repr

/-- save_group_settings (bot.py, lines 619-645): INSERT OR REPLACE INTO groups. -/
def save_group_settings (group_id : ℤ) (s : WizardSettings) : GroupsInsert :=
  { group_id := group_id
    token_address := s.token_address
    min_buy_usd := s.min_buy_usd.getD 0
    emoji := s.emoji.getD "🔥"
    website := s.website.join
    telegram_link := s.telegram_link.join
    twitter_link := s.twitter_link.join
    media_file_id := s.media_file_id.join }

/-- Conversation outcome of the finish_setup branch. -/
inductive FinishOutcome
  | ended
  | choosing
deriving DecidableEq, Repr

/-- The required_fields check of menu_handler (bot.py, lines 176-177): the
missing list is nonempty iff one of token_address, min_buy_usd, emoji is not
in the settings dictionary. -/
def required_missing (s : WizardSettings) : Bool :=
  s.token_address.isNone || s.min_buy_usd.isNone || s.emoji.isNone

/-- The finish_setup branch of menu_handler (bot.py, lines 168-229). With no
group recorded the conversation ends with nothing persisted; with a required
field missing the user is re-prompted and the state returns to CHOOSING with
the settings untouched; otherwise the settings are persisted via
save_group_settings and the conversation ends with user_data cleared.
(The token symbol fetched at lines 188-193 only decorates the confirmation
messages; it is not among the columns written by save_group_settings.) -/
def finish_setup (u : SetupUserData) :
    SetupUserData × Option GroupsInsert × FinishOutcome :=
  match u.setup_group_id with
  | none => (u, none, FinishOutcome.ended)
  | some gid =>
    if required_missing u.settings then (u, none, FinishOutcome.choosing)
    else (⟨none, WizardSettings.empty⟩,
      some (save_group_settings gid u.settings), FinishOutcome.ended)

/-! ### Boost payment flow (bot.py, lines 50-60 and 423-601; sui_api.py) -/

/-- BOOST_OPTIONS (bot.py, lines 50-60): duration key, duration in seconds,
cost in SUI. -/
def BOOST_OPTIONS : List (String × ℤ × ℚ) :=
  [("4h", 4 * 3600, 15), ("8h", 8 * 3600, 20), ("12h", 12 * 3600, 30),
   ("24h", 24 * 3600, 50), ("48h", 48 * 3600, 80), ("72h", 72 * 3600, 120),
   ("1week", 7 * 24 * 3600, 220), ("2weeks", 14 * 24 * 3600, 410),
   ("1month", 30 * 24 * 3600, 780)]

/-- The configured receiving address (bot.py, line 32). -/
def BOOST_RECEIVER : String :=
  "0x7338ef163ee710923803cb0dd60b5b02cddc5fbafef417342e1bbf1fba20e702"

/-- sui_api.verify_payment (sui_api.py, lines 256-299), the verification
routine imported and called by bot.py. Its body logs two warnings, carries the
real RPC lookup only inside a comment, and unconditionally returns True
(line 299). It therefore ignores all three of its arguments; the polymorphic
signature reflects that the call site passes them in an order that does not
even match the parameter names. -/
def sui_api_verify_payment {α β γ : Type} (transaction_hash : α)
    (expected_receiver : β) (expected_amount_sui : γ) : Bool :=
  true

/-- INSERT OR REPLACE INTO boosts (bot.py, lines 556-562): the row with the
conflicting primary key token_address is replaced by the new row. -/
def upsert_boost (boosts : List BoostRow) (token_address : String)
    (expiration : ℤ) : List BoostRow :=
  (boosts.filter (fun b => ¬ (b.token_address = token_address))) ++
    [⟨token_address, expiration⟩]

/-- The pending boost data read from context.user_data by confirm_boost
(bot.py, lines 522-527). -/
structure PendingBoost where
  boost_token : Option String
  boost_cost : Option ℚ
  boost_duration : Option String
  boost_seconds : Option ℤ
deriving DecidableEq, Repr

/-- The user-visible outcome of confirm_boost. -/
inductive ConfirmReply
  | no_pending
  | verification_failed
  | activated
deriving DecidableEq, Repr

/-- confirm_boost (bot.py, lines 511-601): with incomplete pending data the
user is redirected to /boost; otherwise verify_payment(txn_hash, boost_cost,
BOOST_RECEIVER) decides between the failure message and activating the boost,
which writes expiration = now + boost_seconds with INSERT OR REPLACE. -/
def confirm_boost (pending : PendingBoost) (txn_hash : String) (now : ℤ)
    (boosts : List BoostRow) : List BoostRow × ConfirmReply :=
  match pending.boost_token, pending.boost_cost, pending.boost_duration,
      pending.boost_seconds with
  | some token_address, some boost_cost, some _dur, some boost_seconds =>
    if sui_api_verify_payment txn_hash boost_cost BOOST_RECEIVER then
      (upsert_boost boosts token_address (now + boost_seconds),
        ConfirmReply.activated)
    else (boosts, ConfirmReply.verification_failed)
  | _, _, _, _ => (boosts, ConfirmReply.no_pending)

/-- Lookup of the boosts table by its primary key. -/
def lookup_boost (boosts : List BoostRow) (token_address : String) : Option ℤ :=
  (boosts.find? (fun b => b.token_address = token_address)).map
    (fun b => b.expiration_timestamp)

/-! ### Trending leaderboard (bot.py, trend_alert, lines 647-776) -/

/-- One entry of the token_data list built by trend_alert (bot.py,
lines 666-699). symbol, market_cap and price_change come from
fetch_token_info and only decorate the rendered message. -/
structure TokenData where
  address : String
  symbol : String
  market_cap : ℚ
  price_change : ℚ
  volume_30m : ℚ
  is_boosted : Bool
  boost_remaining : ℤ
deriving DecidableEq, Repr

/-- SELECT SUM(usd_value) FROM buys WHERE token_address = ? AND timestamp > ?
with the trailing 30-minute cutoff now - 1800 (bot.py, lines 676-683); a NULL
sum is read as 0. -/
def volume_30m (buys : List BuyRow) (token_address : String) (now : ℤ) : ℚ :=
  ((buys.filter
      (fun b => b.token_address = token_address ∧ now - 1800 < b.timestamp)).map
    (fun b => b.usd_value)).sum

/-- The boosted-token rows with unexpired boosts, as selected at bot.py,
lines 656-659 (WHERE expiration_timestamp > now). -/
def boosted_token_rows (boosts : List BoostRow) (now : ℤ) : List BoostRow :=
  boosts.filter (fun b => now < b.expiration_timestamp)

/-- The token_data entry for one token (bot.py, lines 666-699): is_boosted is
membership in the boosted dictionary, boost_remaining is expiration - now for
a boosted token and 0 otherwise. -/
def trend_token_data (buys : List BuyRow) (boosts : List BoostRow) (now : ℤ)
    (symbol : String) (market_cap price_change : ℚ) (token_address : String) :
    TokenData :=
  match (boosted_token_rows boosts now).find?
      (fun b => b.token_address = token_address) with
  | some b =>
    { address := token_address, symbol := symbol, market_cap := market_cap,
      price_change := price_change,
      volume_30m := volume_30m buys token_address now,
      is_boosted := true,
      boost_remaining := b.expiration_timestamp - now }
  | none =>
    { address := token_address, symbol := symbol, market_cap := market_cap,
      price_change := price_change,
      volume_30m := volume_30m buys token_address now,
      is_boosted := false, boost_remaining := 0 }

/-- The Python sort key of bot.py, line 704:
(-1 if is_boosted else 0, -boost_remaining, -volume_30m), compared
lexicographically as Python compares tuples. -/
def trend_key (t : TokenData) : Lex (ℤ × Lex (ℤ × ℚ)) :=
  toLex ((if t.is_boosted then -1 else 0 : ℤ),
    toLex ((-t.boost_remaining, -t.volume_30m) : ℤ × ℚ))

/-- The ordering imposed by token_data.sort(key=...). -/
def trend_le (a b : TokenData) : Prop := trend_key a ≤ trend_key b

instance : DecidableRel trend_le := fun a b =>
  inferInstanceAs (Decidable (trend_key a ≤ trend_key b))

instance : IsTotal TokenData trend_le :=
  ⟨fun a b => le_total (trend_key a) (trend_key b)⟩

instance : IsTrans TokenData trend_le :=
  ⟨fun _ _ _ hab hbc => le_trans hab hbc⟩

/-- token_data.sort(key=...) (bot.py, line 704): Python list.sort is a stable
ascending sort by the key, modelled by a stable insertion sort under
trend_le. -/
def trend_sort (l : List TokenData) : List TokenData :=
  List.insertionSort trend_le l

/-- top_tokens = token_data[:10] (bot.py, line 707). -/
def trend_top (l : List TokenData) : List TokenData := (trend_sort l).take 10

/-! ### Alert formatter (utils.format_alert, utils.py, lines 12-147) -/

/-- Left zero-padding of a digit string to a given width. -/
def padLeftZeros (s : String) (n : ℕ) : String :=
  String.mk (List.replicate (n - s.length) '0') ++ s

/-- Fixed-point decimal rendering of a rational with the given number of
decimals, modelling the Python fixed-point float format specifier (the float
value itself is modelled as an exact rational; ties round half up). -/
def fmtFixed (q : ℚ) (prec : ℕ) : String :=
  let n : ℤ := round (q * (10 : ℚ) ^ prec)
  let sign := if n < 0 then "-" else ""
  let m := n.natAbs
  if prec = 0 then sign ++ toString (m / 10 ^ prec)
  else sign ++ toString (m / 10 ^ prec) ++ "." ++
    padLeftZeros (toString (m % 10 ^ prec)) prec

/-- String repetition, Python s * n (empty for n = 0). -/
def strRepeat (s : String) (n : ℕ) : String := String.join (List.replicate n s)

/-- The token_info dictionary as read by format_alert (utils.py,
lines 23-27); an absent key is none, and the .get defaults of the source are
applied inside format_alert. -/
structure TokenInfoDict where
  symbol : Option String
  name : Option String
  price : Option ℚ
  market_cap : Option ℚ
  liquidity : Option ℚ
deriving DecidableEq, Repr

/-- The buy_data dictionary as read by format_alert (utils.py, lines 30-33
and 47). -/
structure BuyDataDict where
  buyer_address : Option String
  transaction_id : Option String
  usd_value : Option ℚ
  amount : Option ℚ
  token_address : Option String
deriving DecidableEq, Repr

/-- The group_settings dictionary as read by format_alert (utils.py,
lines 36-41 and 146). -/
structure GroupSettingsDict where
  emoji : Option String
  buy_step : Option ℚ
  website : Option String
  telegram_link : Option String
  twitter_link : Option String
  media_file_id : Option String
deriving DecidableEq, Repr

/-- An inline keyboard button (label and url). -/
structure TgInlineButton where
  text : String
  url : String
deriving DecidableEq, Repr

/-- The value returned by format_alert (utils.py, lines 143-147). -/
structure AlertMessage where
  text : String
  reply_markup : List (List TgInlineButton)
  media_file_id : Option String
deriving DecidableEq, Repr

/-- The inner helper format_market_value of format_alert (utils.py,
lines 75-83): dollar amount abbreviated with a K, M or B suffix. -/
def format_market_value (value : ℚ) : String :=
  if 1000000000 ≤ value then "$" ++ fmtFixed (value / 1000000000) 2 ++ "B"
  else if 1000000 ≤ value then "$" ++ fmtFixed (value / 1000000) 2 ++ "M"
  else if 1000 ≤ value then "$" ++ fmtFixed (value / 1000) 2 ++ "K"
  else "$" ++ fmtFixed value 2

/-- utils.format_alert (utils.py, lines 12-147), translated line by line: a
pure function of the four arguments, returning the message text, the inline
keyboard and the optional media id. The source reads the optional link
settings with a truthiness test; an absent or skipped link is modelled as
none. (The names InlineKeyboardButton and InlineKeyboardMarkup resolve to the
plain record constructors of the chat SDK.) -/
def format_alert (buy_data : BuyDataDict) (token_info : TokenInfoDict)
    (group_settings : GroupSettingsDict) (sui_price : ℚ) : AlertMessage :=
  let token_symbol := (token_info.symbol.getD "TOKEN").toUpper
  let token_price := token_info.price.getD 0
  let market_cap := token_info.market_cap.getD 0
  let liquidity := token_info.liquidity.getD 0
  let buyer_address := buy_data.buyer_address.getD "N/A"
  let transaction_id := buy_data.transaction_id.getD "N/A"
  let usd_value := buy_data.usd_value.getD 0
  let token_amount := buy_data.amount.getD 0
  let emoji := group_settings.emoji.getD "🔥"
  let buy_step := group_settings.buy_step.getD 1
  let token_contract_address := buy_data.token_address.getD "UNKNOWN_TOKEN_ADDRESS"
  let emoji_count : ℤ := if 0 < buy_step then max 1 (ratTrunc (usd_value / buy_step)) else 0
  let emojis := strRepeat emoji (min emoji_count 50).toNat
  let usd_value_str := "$" ++ fmtFixed usd_value 2
  let sui_size : ℚ :=
    if 0 < token_price then (if 0 < sui_price then usd_value / sui_price else 0) else 0
  let sui_size_str := fmtFixed sui_size 2 ++ " SUI"
  let token_amount_str :=
    if 1000000000 ≤ token_amount then fmtFixed (token_amount / 1000000000) 2 ++ "B"
    else if 1000000 ≤ token_amount then fmtFixed (token_amount / 1000000) 2 ++ "M"
    else if 1000 ≤ token_amount then fmtFixed (token_amount / 1000) 2 ++ "K"
    else fmtFixed token_amount 2
  let market_cap_str := format_market_value market_cap
  let liquidity_str := format_market_value liquidity
  let title :=
    match group_settings.telegram_link with
    | some tg => "[" ++ token_symbol ++ " Buy!](" ++ tg ++ ")\n"
    | none => token_symbol ++ " Buy!\n"
  let suivision_buyer_link := "https://suivision.xyz/address/" ++ buyer_address
  let suiscan_tx_link := "https://suiscan.xyz/mainnet/tx/" ++ transaction_id
  let social_links : List String :=
    (match group_settings.website with
     | some w => ["[Website](" ++ w ++ ")"]
     | none => []) ++
    (match group_settings.telegram_link with
     | some tg => ["[Telegram](" ++ tg ++ ")"]
     | none => []) ++
    (match group_settings.twitter_link with
     | some tw => ["[X](" ++ tw ++ ")"]
     | none => [])
  let dexscreener_chart_link :=
    "https://dexscreener.com/sui/" ++ token_contract_address
  let message_parts : List String :=
    [title,
     emojis ++ "\n",
     "⬅️ Size " ++ usd_value_str ++ " | " ++ sui_size_str ++ "\n",
     "➡️ Got " ++ token_amount_str ++ " " ++ token_symbol ++ "\n",
     "👤 Buyer [" ++ shorten_address buyer_address ++ "](" ++
       suivision_buyer_link ++ ") | Txn ([Link](" ++ suiscan_tx_link ++ "))\n",
     "🔼 MCap " ++ market_cap_str ++ "\n",
     "📊 TVL/Liq " ++ liquidity_str ++ "\n",
     "📊 Price $" ++ fmtFixed token_price 6 ++ "\n",
     "💧 SUI Price: $" ++ fmtFixed sui_price 2 ++ "\n"] ++
    (if social_links.isEmpty then []
     else [String.intercalate " " social_links ++ "\n"]) ++
    ["[Chart](" ++ dexscreener_chart_link ++
       ") | [Vol. Bot](https://t.me/suivolumebot) | [Sui Trending](https://t.me/moonbagstrending)\n",
     "———\n",
     "[Ad: Place your advertisement here](https://t.me/BullsharkTrendingBot?start=adBuyRequest)"]
  { text := String.join message_parts
    reply_markup :=
      [[{ text := "Buy " ++ token_symbol,
          url := "https://dexscreener.com/sui/" ++ token_contract_address ++ "?trade" }]]
    media_file_id := group_settings.media_file_id }

/-! ### Concrete fixtures used by witnesses and evaluations -/

/-- A configured group tracking 0xtok with a 10 USD minimum. -/
def demo_group : GroupRow := ⟨1, "0xtok", 10, "🔥", none, none, none, none⟩

/-- A configured group tracking 0xtok with a 50 USD minimum. -/
def demo_group50 : GroupRow := ⟨7, "0xtok", 50, "🚀", none, none, none, none⟩

/-- A 100 USD buy of 0xtok with transaction hash 0xabc. -/
def demo_buy : BuyEvent := ⟨"0xabc", "0xbuyer", 1000, 100, 150⟩

/-- A user who completed the wizard for group 42 with all required fields. -/
def demo_user : SetupUserData :=
  ⟨some 42, ⟨some "0xtok", some 50, some "🔥", none,
    some (some "https://t.me/x"), none, some none⟩⟩

/-! ### Helper lemmas -/

/-- For a nonnegative rational, truncation toward zero agrees with the floor. -/
theorem ratTrunc_eq_floor_of_nonneg (q : ℚ) (h : 0 ≤ q) : ratTrunc q = ⌊q⌋ := by
  rw [Rat.floor_def]
  exact Int.tdiv_eq_ediv (Rat.num_nonneg.mpr h) (Int.natCast_nonneg q.den)

/-- For a nonpositive rational, truncation toward zero is nonpositive. -/
theorem ratTrunc_nonpos_of_nonpos (q : ℚ) (h : q ≤ 0) : ratTrunc q ≤ 0 := by
  unfold ratTrunc
  have hnum : q.num ≤ 0 := Rat.num_nonpos.mpr h
  have hden : (0 : ℤ) ≤ (q.den : ℤ) := Int.natCast_nonneg q.den
  have hrw : Int.tdiv q.num (q.den : ℤ) = -(Int.tdiv (-q.num) (q.den : ℤ)) := by
    rw [← Int.neg_tdiv, neg_neg]
  have h1 : (0 : ℤ) ≤ -q.num := by omega
  have h2 := Int.tdiv_nonneg h1 hden
  rw [hrw]
  omega

/-- Under the clamp to [1, 20], truncation toward zero and floor agree. -/
theorem clamp_trunc_eq_clamp_floor (q : ℚ) :
    max 1 (min 20 (ratTrunc q)) = max 1 (min 20 ⌊q⌋) := by
  rcases le_or_lt 0 q with h | h
  · rw [ratTrunc_eq_floor_of_nonneg q h]
  · have h1 : ratTrunc q ≤ 0 := ratTrunc_nonpos_of_nonpos q h.le
    have h2 : ⌊q⌋ ≤ 0 := Int.floor_nonpos h.le
    omega

/-! ### Claims -/

/-- Membership in the alert targets of a buy: the group tracks the token and
its threshold is met. -/
theorem mem_alert_targets (groups : List GroupRow) (token_address : String)
    (usd_value : ℚ) (g : GroupRow) :
    g ∈ alert_targets groups token_address usd_value ↔
      (g ∈ groups ∧ g.token_address = token_address ∧
        g.min_buy_usd ≤ usd_value) := by
  simp only [alert_targets, List.mem_filter, decide_eq_true_eq, not_lt,
    decide_not, Bool.not_eq_eq_eq_not, Bool.not_true, decide_eq_false_iff_not]
  tauto

/-- Membership in the active boosted-token list: some boosts row for the
token expires strictly after now. -/
theorem mem_active_boost_tokens (boosts : List BoostRow) (now : ℤ)
    (token_address : String) :
    (active_boost_tokens boosts now).contains token_address = true ↔
      ∃ b ∈ boosts, b.token_address = token_address ∧
        now < b.expiration_timestamp := by
  rw [List.contains_iff_exists_mem_beq]
  constructor
  · rintro ⟨t, ht, hbeq⟩
    simp only [active_boost_tokens, List.mem_map, List.mem_filter] at ht
    obtain ⟨b, ⟨hb, hexp⟩, rfl⟩ := ht
    simp only [beq_iff_eq] at hbeq
    exact ⟨b, hb, hbeq.symm, by simpa using hexp⟩
  · rintro ⟨b, hb, htok, hexp⟩
    refine ⟨b.token_address, ?_, by simp [htok]⟩
    simp only [active_boost_tokens, List.mem_map, List.mem_filter]
    exact ⟨b, ⟨hb, by simpa using hexp⟩, rfl⟩

/-- The formatting variables are bound after a buy whose group loop ran (they
were bound before, or some configured group qualifies for this buy). -/
theorem alert_targets_isEmpty_false_iff (groups : List GroupRow)
    (token_address : String) (usd_value : ℚ) :
    (alert_targets groups token_address usd_value).isEmpty = false ↔
      ∃ g ∈ groups, g.token_address = token_address ∧
        g.min_buy_usd ≤ usd_value := by
  rw [List.isEmpty_eq_false]
  constructor
  · intro h
    obtain ⟨g, hg⟩ := List.exists_mem_of_ne_nil _ h
    obtain ⟨h1, h2, h3⟩ := (mem_alert_targets groups token_address usd_value g).mp hg
    exact ⟨g, h1, h2, h3⟩
  · rintro ⟨g, h1, h2, h3⟩
    exact List.ne_nil_of_mem
      ((mem_alert_targets groups token_address usd_value g).mpr ⟨h1, h2, h3⟩)

/-- C1. For every pair of buy records with the same transaction_id processed
by check_buys, at most one row is stored in the buys table; but, contrary to
the claim, the second processing of a duplicate transaction_id dispatches the
group alert again: evaluated at the failing input (the buy 0xabc delivered
in two polls, each starting with its formatting variables unbound, with one
matching group), the stored table has a single row while both processings
alert group 1. -/
theorem C1_duplicate_buy_alerts :
    (check_buys_process_buy
        (check_buys_process_buy [] [demo_group] [] "0xtok" demo_buy false).buys
        [demo_group] [] "0xtok" demo_buy false).buys.length = 1
    ∧ (check_buys_process_buy [] [demo_group] [] "0xtok" demo_buy
        false).group_alerts = [1]
    ∧ (check_buys_process_buy
        (check_buys_process_buy [] [demo_group] [] "0xtok" demo_buy false).buys
        [demo_group] [] "0xtok" demo_buy false).group_alerts = [1] := by
  refine ⟨?_, ?_, ?_⟩ <;>
    simp [check_buys_process_buy, insert_or_ignore_buy, alert_targets,
      should_post_trending, demo_group, demo_buy] <;> norm_num

/-- A configured group tracking 0xtok with a 500 USD minimum. -/
def demo_group500 : GroupRow := ⟨9, "0xtok", 500, "🔥", none, none, none, none⟩

/-- A 250 USD buy of 0xtok. -/
def demo_buy250 : BuyEvent := ⟨"0xbig", "0xbuyer", 1000, 250, 150⟩

/-- C2 counterexample. A 250 USD buy (well over the 200 USD gate) of a token
whose only configured group has min_buy_usd = 500, processed while the
formatting variables are unbound, is NOT posted to the trending channel: no
group iteration passed its threshold, so the trending block reads the unbound
usd_value_str and friends and raises UnboundLocalError, which the per-token
handler swallows. This refutes the claimed iff at a concrete input. -/
theorem C2_counterexample :
    (check_buys_process_buy [] [demo_group500] [] "0xtok" demo_buy250
        false).posted_trending = false
    ∧ (check_buys_process_buy [] [demo_group500] [] "0xtok" demo_buy250
        false).raised = true
    ∧ (200 : ℚ) ≤ demo_buy250.usd_value
    ∧ ¬ ((check_buys_process_buy [] [demo_group500] [] "0xtok" demo_buy250
          false).posted_trending = true ↔
        (200 ≤ demo_buy250.usd_value ∨ ∃ b ∈ ([] : List BoostRow),
          b.token_address = "0xtok" ∧ (1000 : ℤ) < b.expiration_timestamp)) := by
  have h1 : (check_buys_process_buy [] [demo_group500] [] "0xtok" demo_buy250
      false).posted_trending = false := by
    norm_num [check_buys_process_buy, alert_targets, should_post_trending,
      demo_group500, demo_buy250]
  have h2 : (check_buys_process_buy [] [demo_group500] [] "0xtok" demo_buy250
      false).raised = true := by
    norm_num [check_buys_process_buy, alert_targets, should_post_trending,
      demo_group500, demo_buy250]
  have h3 : (200 : ℚ) ≤ demo_buy250.usd_value := by norm_num [demo_buy250]
  refine ⟨h1, h2, h3, fun hiff => ?_⟩
  have := hiff.mpr (Or.inl h3)
  rw [h1] at this
  exact Bool.false_ne_true this

/-- C2 amended. A processed buy is posted to the trending channel iff the
gate holds (usd_value at least 200, or a boosts row for the token expiring
strictly after the poll time) AND the alert-formatting variables are bound,
that is, some group iteration of the same check_buys call has already passed
its threshold, this buy's own group loop included; when the gate holds but no
such iteration has occurred the trending block raises UnboundLocalError and
nothing is posted. The never-post direction is unconditional, as the claim
states: a 199.99 USD buy with no active boost is not posted even with bound
variables, a 200.00 USD buy with a qualifying group is posted, an active
boost forces posting of a qualifying small buy, and an expired boost never
causes posting. -/
theorem C2_amended :
    (∀ (buys : List BuyRow) (groups : List GroupRow) (boosts : List BoostRow)
        (now : ℤ) (token_address : String) (buy : BuyEvent) (fmt_bound : Bool),
        ((check_buys_process_buy buys groups (active_boost_tokens boosts now)
            token_address buy fmt_bound).posted_trending = true ↔
          ((200 ≤ buy.usd_value ∨ ∃ b ∈ boosts,
              b.token_address = token_address ∧ now < b.expiration_timestamp)
            ∧ (fmt_bound = true ∨ ∃ g ∈ groups,
                g.token_address = token_address ∧
                g.min_buy_usd ≤ buy.usd_value)))
        ∧ ((check_buys_process_buy buys groups (active_boost_tokens boosts now)
            token_address buy fmt_bound).raised = true ↔
          ((200 ≤ buy.usd_value ∨ ∃ b ∈ boosts,
              b.token_address = token_address ∧ now < b.expiration_timestamp)
            ∧ ¬ (fmt_bound = true ∨ ∃ g ∈ groups,
                g.token_address = token_address ∧
                g.min_buy_usd ≤ buy.usd_value))))
    ∧ (check_buys_process_buy [] [demo_group] (active_boost_tokens [] 1000)
        "0xtok" ⟨"0xt1", "0xb", 10, 199.99, 150⟩ true).posted_trending = false
    ∧ (check_buys_process_buy [] [demo_group] (active_boost_tokens [] 1000)
        "0xtok" ⟨"0xt2", "0xb", 10, 200, 150⟩ false).posted_trending = true
    ∧ (check_buys_process_buy [] [demo_group] (active_boost_tokens
        [⟨"0xtok", 2000⟩] 1000) "0xtok"
        ⟨"0xt3", "0xb", 10, 15, 150⟩ false).posted_trending = true
    ∧ (check_buys_process_buy [] [demo_group] (active_boost_tokens
        [⟨"0xtok", 1000⟩] 1000) "0xtok"
        ⟨"0xt4", "0xb", 10, 150, 150⟩ true).posted_trending = false := by
  refine ⟨?_, ?_, ?_, ?_, ?_⟩
  · intro buys groups boosts now token_address buy fmt_bound
    have hgate : should_post_trending buy.usd_value token_address
        (active_boost_tokens boosts now) = true ↔
        (200 ≤ buy.usd_value ∨ ∃ b ∈ boosts,
          b.token_address = token_address ∧ now < b.expiration_timestamp) := by
      rw [should_post_trending, Bool.or_eq_true, decide_eq_true_eq,
        mem_active_boost_tokens]
    have hbound : (fmt_bound ||
        !(alert_targets groups token_address buy.usd_value).isEmpty) = true ↔
        (fmt_bound = true ∨ ∃ g ∈ groups, g.token_address = token_address ∧
          g.min_buy_usd ≤ buy.usd_value) := by
      rw [Bool.or_eq_true, Bool.not_eq_true',
        alert_targets_isEmpty_false_iff groups token_address buy.usd_value]
    constructor
    · show (should_post_trending _ _ _ && (fmt_bound || !_)) = true ↔ _
      rw [Bool.and_eq_true, hgate, hbound]
    · show (should_post_trending _ _ _ && !(fmt_bound || !_)) = true ↔ _
      rw [Bool.and_eq_true, hgate, Bool.not_eq_true', ← hbound]
      simp
  · norm_num [check_buys_process_buy, alert_targets, should_post_trending,
      active_boost_tokens, demo_group]
  · norm_num [check_buys_process_buy, alert_targets, should_post_trending,
      active_boost_tokens, demo_group]
  · norm_num [check_buys_process_buy, alert_targets, should_post_trending,
      active_boost_tokens, demo_group]
  · norm_num [check_buys_process_buy, alert_targets, should_post_trending,
      active_boost_tokens, demo_group]

/-- C6. A configured group is among the alert targets of a buy iff its
token_address matches and its min_buy_usd threshold is met; the per-buy
dispatch alerts exactly those groups, whatever the binding state of the
formatting variables; and at min_buy_usd = 50 a 49.99 USD buy is skipped
while a 50.00 USD buy is alerted. -/
theorem C6_group_threshold :
    (∀ (groups : List GroupRow) (token_address : String) (usd_value : ℚ)
        (g : GroupRow),
        g ∈ alert_targets groups token_address usd_value ↔
          (g ∈ groups ∧ g.token_address = token_address ∧
            g.min_buy_usd ≤ usd_value))
    ∧ (∀ (buys : List BuyRow) (groups : List GroupRow) (boosted : List String)
        (token_address : String) (buy : BuyEvent) (fmt_bound : Bool),
        (check_buys_process_buy buys groups boosted token_address buy
            fmt_bound).group_alerts
          = (alert_targets groups token_address buy.usd_value).map
              (fun g => g.group_id))
    ∧ alert_targets [demo_group50] "0xtok" (49.99 : ℚ) = []
    ∧ alert_targets [demo_group50] "0xtok" (50 : ℚ) = [demo_group50] := by
  refine ⟨mem_alert_targets, fun _ _ _ _ _ _ => rfl, ?_, ?_⟩
  · norm_num [alert_targets, demo_group50]
  · norm_num [alert_targets, demo_group50]

/-- C4 counterexample. At usd_value = 250 with a per-group step of 5,
utils.format_alert renders 50 repetitions, not the claimed
clamp(floor(250 / 5), 1, 20) = 20: its count is capped at 50, not 20. -/
theorem C4_counterexample :
    format_alert_emoji_repeat 250 5 = 50 ∧ spec_emoji_count 250 5 = 20 ∧
      ¬ format_alert_emoji_repeat 250 5 = spec_emoji_count 250 5 := by
  have htr : ratTrunc ((250 : ℚ) / 5) = 50 := by
    rw [ratTrunc_eq_floor_of_nonneg _ (by norm_num)]
    norm_num
  refine ⟨?_, ?_, ?_⟩ <;>
    simp [format_alert_emoji_repeat, format_alert_emoji_count, spec_emoji_count,
      htr] <;> norm_num

/-- C4 amended. In check_buys the repeated-emoji count equals
clamp(floor(usd_value / 5), 1, 20), with the divisor hardcoded to 5 (so
usd_value = 17 gives 3 and usd_value = 250 gives 20, as the claim states for
emoji_step = 5); the unused utils.format_alert instead computes
max(1, trunc(usd_value / buy_step)) capped at 50, giving 50 at
usd_value = 250, buy_step = 5. -/
theorem C4_amended :
    (∀ usd_value : ℚ,
      check_buys_emoji_count usd_value = max 1 (min 20 ⌊usd_value / 5⌋))
    ∧ check_buys_emoji_count 17 = 3
    ∧ check_buys_emoji_count 250 = 20
    ∧ format_alert_emoji_repeat 250 5 = 50 := by
  have hmain : ∀ usd_value : ℚ,
      check_buys_emoji_count usd_value = max 1 (min 20 ⌊usd_value / 5⌋) :=
    fun usd_value => clamp_trunc_eq_clamp_floor (usd_value / 5)
  have htr : ratTrunc ((250 : ℚ) / 5) = 50 := by
    rw [ratTrunc_eq_floor_of_nonneg _ (by norm_num)]
    norm_num
  refine ⟨hmain, ?_, ?_, ?_⟩
  · rw [hmain]
    norm_num
  · rw [hmain]
    norm_num
  · simp [format_alert_emoji_repeat, format_alert_emoji_count, htr]

/-- C5 counterexample. A poll whose every fetch fails still advances the
stored checkpoint: starting from checkpoint 100 at poll time 200 with one
tracked token and a fetch that raises, the stored checkpoint afterwards is
200, not the unchanged 100 the claim requires. -/
theorem C5_counterexample :
    (check_buys (some 100) [demo_group] [] [] 200
        (fun _ _ => none)).last_check_timestamp = some 200
    ∧ ¬ (check_buys (some 100) [demo_group] [] [] 200
        (fun _ _ => none)).last_check_timestamp = some 100 := by
  constructor
  · rfl
  · intro h
    simp [check_buys, demo_group, check_buys_process_token] at h

/-- C5 amended. check_buys overwrites the stored checkpoint with the current
poll time at the start of every poll that has at least one tracked token,
before any fetching, so fetch failures do not prevent the advance; only a
poll with no tracked tokens leaves the checkpoint unchanged. -/
theorem C5_amended (stored : Option ℤ) (groups : List GroupRow)
    (boosts : List BoostRow) (buys0 : List BuyRow) (now : ℤ)
    (fetch : ℤ → String → Option (List BuyEvent)) (h : ¬ groups = []) :
    (check_buys stored groups boosts buys0 now fetch).last_check_timestamp
      = some now := by
  unfold check_buys
  have ht : ((groups.map (fun g => g.token_address)).dedup).isEmpty = false := by
    simp [List.isEmpty_iff, List.dedup_eq_nil, h]
  simp [ht]

/-- Witness for C5 amended at a concrete poll. -/
theorem C5_amended_witness :
    (check_buys none [demo_group] [] [] 500
        (fun _ _ => some [])).last_check_timestamp = some 500 :=
  C5_amended none [demo_group] [] [] 500 (fun _ _ => some []) (by simp)

/-- C3. The verification routine that bot.py imports and calls,
sui_api.verify_payment, returns True unconditionally for every argument, so
confirm_boost activates a boost for any transaction hash whatsoever:
evaluated at the failing input (hash 0xnopayment, which made no payment, with
a pending 4h boost costing 15 SUI at time 1000), a boosts row expiring at
15400 is written and the user is told the boost is activated, contrary to the
claim that verification failure writes nothing. -/
theorem C3_placeholder_verification :
    (∀ {α β γ : Type} (a : α) (b : β) (c : γ), sui_api_verify_payment a b c = true)
    ∧ confirm_boost ⟨some "0xtok", some 15, some "4h", some 14400⟩
        "0xnopayment" 1000 []
        = ([⟨"0xtok", 15400⟩], ConfirmReply.activated) := by
  exact ⟨fun _ _ _ => rfl, rfl⟩

/-- C10. On a boosts table with unique token keys, a completed /confirm for a
token activates via INSERT OR REPLACE: the result equals the upsert of the
new row, key uniqueness is preserved, the stored expiration for the token is
exactly now + duration, and the result is independent of any previously
stored row for that token (remaining time is discarded, never accumulated). -/
theorem C10_boost_upsert (boosts : List BoostRow)
    (token_address txn_hash dur : String) (cost : ℚ) (now secs : ℤ)
    (hkeys : (boosts.map (fun b => b.token_address)).Nodup) :
    confirm_boost ⟨some token_address, some cost, some dur, some secs⟩
        txn_hash now boosts
        = (upsert_boost boosts token_address (now + secs), ConfirmReply.activated)
    ∧ ((upsert_boost boosts token_address (now + secs)).map
        (fun b => b.token_address)).Nodup
    ∧ lookup_boost (upsert_boost boosts token_address (now + secs)) token_address
        = some (now + secs)
    ∧ upsert_boost boosts token_address (now + secs)
        = upsert_boost
            (boosts.filter (fun b => ¬ (b.token_address = token_address)))
            token_address (now + secs) := by
  refine ⟨rfl, ?_, ?_, ?_⟩
  · rw [upsert_boost, List.map_append, List.nodup_append]
    refine ⟨?_, by simp, ?_⟩
    · exact ((List.filter_sublist boosts).map
        (fun b => b.token_address)).nodup hkeys
    · intro a ha
      simp only [List.mem_map, List.mem_filter, decide_not,
        Bool.not_eq_eq_eq_not, Bool.not_true, decide_eq_false_iff_not] at ha
      obtain ⟨b, ⟨_, hne⟩, rfl⟩ := ha
      simpa using hne
  · rw [upsert_boost, lookup_boost, List.find?_append]
    have hnone : (boosts.filter
        (fun b => ¬ (b.token_address = token_address))).find?
        (fun b => b.token_address = token_address) = none := by
      rw [List.find?_eq_none]
      intro b hb
      simp only [List.mem_filter, decide_not, Bool.not_eq_eq_eq_not,
        Bool.not_true, decide_eq_false_iff_not] at hb
      simpa using hb.2
    rw [hnone]
    simp
  · rw [upsert_boost, upsert_boost, List.filter_filter]
    simp

/-- Witness for C10 at a concrete table holding an earlier boost for the same
token and one for another token. -/
theorem C10_boost_upsert_witness :
    confirm_boost ⟨some "0xtok", some 15, some "4h", some 14400⟩
        "0xhash" 1000 [⟨"0xtok", 1500⟩, ⟨"0xother", 999999⟩]
        = (upsert_boost [⟨"0xtok", 1500⟩, ⟨"0xother", 999999⟩] "0xtok"
            (1000 + 14400), ConfirmReply.activated)
    ∧ ((upsert_boost [⟨"0xtok", 1500⟩, ⟨"0xother", 999999⟩] "0xtok"
        (1000 + 14400)).map (fun b => b.token_address)).Nodup
    ∧ lookup_boost (upsert_boost [⟨"0xtok", 1500⟩, ⟨"0xother", 999999⟩]
        "0xtok" (1000 + 14400)) "0xtok" = some (1000 + 14400)
    ∧ upsert_boost [⟨"0xtok", 1500⟩, ⟨"0xother", 999999⟩] "0xtok" (1000 + 14400)
        = upsert_boost
            (([⟨"0xtok", 1500⟩, ⟨"0xother", 999999⟩] : List BoostRow).filter
              (fun b => ¬ (b.token_address = "0xtok")))
            "0xtok" (1000 + 14400) :=
  C10_boost_upsert [⟨"0xtok", 1500⟩, ⟨"0xother", 999999⟩] "0xtok" "0xhash"
    "4h" 15 1000 14400 (by decide)

/-- C7. With a setup group recorded (as is the case in every conversation
state that can reach the menu), the Finish transition persists the collected
settings and ends the conversation iff token_address, min_buy_usd and emoji
are all present; when one is missing it returns to the menu state with the
user data, including the collected settings, unchanged. -/
theorem C7_finish_gate (u : SetupUserData) (gid : ℤ)
    (h : u.setup_group_id = some gid) :
    ((finish_setup u).2.1.isSome = true ∧ (finish_setup u).2.2 = FinishOutcome.ended
        ↔ required_missing u.settings = false)
    ∧ (required_missing u.settings = false →
        finish_setup u = (⟨none, WizardSettings.empty⟩,
          some (save_group_settings gid u.settings), FinishOutcome.ended))
    ∧ (required_missing u.settings = true →
        finish_setup u = (u, none, FinishOutcome.choosing)) := by
  obtain ⟨og, s⟩ := u
  simp only [SetupUserData.setup_group_id] at h
  subst h
  cases hm : required_missing s <;> simp [finish_setup, hm]

/-- Witness for C7 at a concrete user who has set all three required fields
for group 42. -/
theorem C7_finish_gate_witness :
    ((finish_setup demo_user).2.1.isSome = true
        ∧ (finish_setup demo_user).2.2 = FinishOutcome.ended
        ↔ required_missing demo_user.settings = false)
    ∧ (required_missing demo_user.settings = false →
        finish_setup demo_user = (⟨none, WizardSettings.empty⟩,
          some (save_group_settings 42 demo_user.settings), FinishOutcome.ended))
    ∧ (required_missing demo_user.settings = true →
        finish_setup demo_user = (demo_user, none, FinishOutcome.choosing)) :=
  C7_finish_gate demo_user 42 rfl

/-- C9. utils.format_alert is embedded as a total pure function of its four
arguments: it is definable without any state, I/O or mutation (every
operation in its body is string building and arithmetic on the given values),
so any two calls with equal arguments return equal results. -/
theorem C9_format_alert_deterministic (b1 b2 : BuyDataDict)
    (t1 t2 : TokenInfoDict) (g1 g2 : GroupSettingsDict) (p1 p2 : ℚ)
    (hb : b1 = b2) (ht : t1 = t2) (hg : g1 = g2) (hp : p1 = p2) :
    format_alert b1 t1 g1 p1 = format_alert b2 t2 g2 p2 := by
  subst hb
  subst ht
  subst hg
  subst hp
  rfl

/-- Witness for C9 at one fully populated concrete argument tuple. -/
theorem C9_format_alert_deterministic_witness :
    format_alert
        ⟨some "0x1234567890abcdef", some "0xabc", some 123, some 1000, some "0xtok"⟩
        ⟨some "moon", some "Moon", some 1, some 2000000, some 500000⟩
        ⟨some "🔥", some 5, some "https://moon.example", some "https://t.me/moon",
          none, some "media1"⟩ 2
      = format_alert
        ⟨some "0x1234567890abcdef", some "0xabc", some 123, some 1000, some "0xtok"⟩
        ⟨some "moon", some "Moon", some 1, some 2000000, some 500000⟩
        ⟨some "🔥", some 5, some "https://moon.example", some "https://t.me/moon",
          none, some "media1"⟩ 2 :=
  C9_format_alert_deterministic _ _ _ _ _ _ _ _ rfl rfl rfl rfl

/-- The ordering facts of the leaderboard claim, read pairwise between an
earlier entry a and a later entry b of the rendered list: a boosted entry
never follows an unboosted one; among boosted entries the remaining boost
time is descending; among unboosted entries the 30-minute volume is
descending. -/
def trend_order (a b : TokenData) : Prop :=
  (b.is_boosted = true → a.is_boosted = true)
  ∧ (a.is_boosted = true → b.is_boosted = true →
      b.boost_remaining ≤ a.boost_remaining)
  ∧ (a.is_boosted = false → b.is_boosted = false →
      b.volume_30m ≤ a.volume_30m)

/-- The Python sort key ordering implies the claimed pairwise ordering facts,
for entries whose boost_remaining is 0 when unboosted (as every entry built
by trend_alert is). -/
theorem trend_le_imp_order (a b : TokenData)
    (ha : a.is_boosted = false → a.boost_remaining = 0)
    (hb : b.is_boosted = false → b.boost_remaining = 0)
    (h : trend_le a b) : trend_order a b := by
  unfold trend_le trend_key at h
  have H := (Prod.Lex.le_iff _ _).mp h
  refine ⟨?_, ?_, ?_⟩
  · intro hbb
    by_contra hab
    rw [Bool.not_eq_true] at hab
    rw [hab, hbb] at H
    norm_num at H
  · intro hab hbb
    rw [hab, hbb] at H
    norm_num at H
    have H2 := (Prod.Lex.le_iff _ _).mp H
    rcases H2 with h2 | ⟨h2, -⟩ <;> omega
  · intro hab hbb
    rw [hab, hbb] at H
    norm_num at H
    have H2 := (Prod.Lex.le_iff _ _).mp H
    rw [ha hab, hb hbb] at H2
    rcases H2 with h2 | ⟨-, h2⟩
    · exact absurd h2 (by norm_num)
    · dsimp only at h2
      linarith

/-- C8. The sorted leaderboard list satisfies, pairwise: every token with an
unexpired boost precedes every token without one, boosted tokens are in
descending order of remaining boost time, and unboosted tokens are in
descending order of 30-minute summed buy volume; at most the top 10 entries
are posted; and a token all of whose boosts rows have
expiration_timestamp <= now is built as unboosted (an expired boost does not
affect the ordering). -/
theorem C8_leaderboard (l : List TokenData) (buys : List BuyRow)
    (boosts : List BoostRow) (now : ℤ) (symbol : String)
    (market_cap price_change : ℚ) (token_address : String)
    (hwf : ∀ t ∈ l, t.is_boosted = false → t.boost_remaining = 0)
    (hexp : ∀ b ∈ boosts, b.token_address = token_address →
      b.expiration_timestamp ≤ now) :
    (trend_top l).length ≤ 10
    ∧ List.Pairwise trend_order (trend_sort l)
    ∧ List.Pairwise trend_order (trend_top l)
    ∧ (trend_token_data buys boosts now symbol market_cap price_change
        token_address).is_boosted = false
    ∧ (trend_token_data buys boosts now symbol market_cap price_change
        token_address).boost_remaining = 0 := by
  have hmem : ∀ t ∈ trend_sort l, t ∈ l := fun t ht =>
    (List.perm_insertionSort trend_le l).mem_iff.mp ht
  have hsorted : List.Pairwise trend_le (trend_sort l) :=
    List.sorted_insertionSort trend_le l
  have hpair : List.Pairwise trend_order (trend_sort l) :=
    hsorted.imp_of_mem (fun hta htb h =>
      trend_le_imp_order _ _ (hwf _ (hmem _ hta)) (hwf _ (hmem _ htb)) h)
  have hfind : (boosted_token_rows boosts now).find?
      (fun b => b.token_address = token_address) = none := by
    rw [List.find?_eq_none]
    intro b hb
    simp only [boosted_token_rows, List.mem_filter, decide_eq_true_eq] at hb
    simp only [decide_eq_true_eq]
    intro heq
    have := hexp b hb.1 heq
    omega
  refine ⟨List.length_take_le 10 (trend_sort l), hpair,
    List.Pairwise.sublist (List.take_sublist 10 (trend_sort l)) hpair, ?_, ?_⟩
  · simp [trend_token_data, hfind]
  · simp [trend_token_data, hfind]

/-- Three leaderboard entries as built by trend_alert: two unboosted tokens
with different 30-minute volumes and one boosted token. -/
def demo_trend : List TokenData :=
  [⟨"0xa", "AAA", 0, 0, 5, false, 0⟩, ⟨"0xb", "BBB", 0, 0, 7, true, 3600⟩,
   ⟨"0xc", "CCC", 0, 0, 9, false, 0⟩]

/-- Witness for C8 at a concrete entry list and an expired boosts row. -/
theorem C8_leaderboard_witness :
    (trend_top demo_trend).length ≤ 10
    ∧ List.Pairwise trend_order (trend_sort demo_trend)
    ∧ List.Pairwise trend_order (trend_top demo_trend)
    ∧ (trend_token_data [] [⟨"0xa", 900⟩] 1000 "AAA" 0 0 "0xa").is_boosted = false
    ∧ (trend_token_data [] [⟨"0xa", 900⟩] 1000 "AAA" 0 0 "0xa").boost_remaining = 0 :=
  C8_leaderboard demo_trend [] [⟨"0xa", 900⟩] 1000 "AAA" 0 0 "0xa"
    (by decide) (by decide)

end Moonbags
